import Mathlib

/-!
Shallow embedding of the configuration provider and the log formatter of the
ead-langchain-template repository (src/langchain_llm/config.py and
src/langchain_llm/logging_config.py), with theorems checking the stated
behaviour of get_key, get_all_keys, validate, get_model_name, load_env_config,
the module-level convenience layer, and CustomFormatter.format.
-/

/-! Python primitives used by the embedded code. -/

/-- A process environment: maps variable names to values, with none meaning
unset. Models os.environ as read by os.getenv. -/
def Env : Type := String → Option String

/-- Python truthiness of an os.getenv result: None and the empty string are
falsy, every other string is truthy. -/
def pyTruthy : Option String → Bool
  | none => false
  | some s => !s.isEmpty

/-- ASCII lower-casing of one character (A-Z map to a-z, everything else is
unchanged): the action of the Python str.lower method on the ASCII range. -/
def lowerChar (c : Char) : Char :=
  if 65 ≤ c.toNat ∧ c.toNat ≤ 90 then Char.ofNat (c.toNat + 32) else c

/-- Models the Python str.lower method: character-wise lowering. -/
def pyLower (s : String) : String := String.mk (s.data.map lowerChar)

/-- Lexicographic code-point comparison of character lists, modeling how Python
compares strings. -/
def lex_le : List Char → List Char → Bool
  | [], _ => true
  | _ :: _, [] => false
  | a :: as, b :: bs =>
    if a.toNat < b.toNat then true
    else if b.toNat < a.toNat then false
    else lex_le as bs

/-- String comparison by code points, as Python orders strings. -/
def str_le (a b : String) : Bool := lex_le a.data b.data

/-- Insertion into a list that is already ordered by str_le. -/
def insert_le (x : String) : List String → List String
  | [] => [x]
  | y :: ys => if str_le x y then x :: y :: ys else y :: insert_le x ys

/-- Models the Python builtin sorted on a list of strings (insertion sort by
code-point order). -/
def py_sorted (l : List String) : List String := l.foldr insert_le []

/-- Models the Python str.endswith method. -/
def str_endswith (s suf : String) : Bool := List.isSuffixOf suf.data s.data

/-- Substring containment, the Python test of a needle occurring in a string:
the string splits around an occurrence of the needle. -/
def str_contains_sub (needle s : String) : Prop := ∃ a b, s = a ++ needle ++ b

/-- The Python exceptions raised or caught by the embedded code: ValueError,
AttributeError, and the ConfigError class defined in config.py lines 14-17. -/
inductive PyError where
  | valueError (msg : String)
  | attributeError (msg : String)
  | configError (msg : String)
deriving DecidableEq, Repr

/-! Embedding of EnvConfigProvider (config.py lines 20-149). The class is
stateless (it has no instance fields), so each method is a function of the
process environment and its Python arguments. -/

namespace EnvConfigProvider

/-- Provider name to environment variable mapping (config.py lines 39-43). -/
def PROVIDER_MAP : List (String × String) :=
  [("openai", "EADLANGCHAIN_AI_OPENAI_API_KEY"),
   ("anthropic", "EADLANGCHAIN_AI_ANTHROPIC_API_KEY"),
   ("gemini", "EADLANGCHAIN_AI_GEMINI_API_KEY")]

/-- Provider name to model environment variable mapping (config.py
lines 46-50). -/
def MODEL_MAP : List (String × String) :=
  [("openai", "EADLANGCHAIN_AI_OPENAI_MODEL"),
   ("anthropic", "EADLANGCHAIN_AI_ANTHROPIC_MODEL"),
   ("gemini", "EADLANGCHAIN_AI_GEMINI_MODEL")]

/-- Models EnvConfigProvider.get_key (config.py lines 52-88). The provider name
is lower-cased; an identity outside PROVIDER_MAP raises ValueError; otherwise
the mapped variable is read and ConfigError is raised when required is set and
the value is falsy (unset or empty); otherwise the read value is returned. -/
def get_key (env : Env) (provider : String) (required : Bool) :
    Except PyError (Option String) :=
  let provider := pyLower provider
  match PROVIDER_MAP.lookup provider with
  | none =>
      let valid_providers := py_sorted (PROVIDER_MAP.map Prod.fst)
      Except.error (PyError.valueError
        ("Unknown provider: " ++ provider ++ ". Supported providers: " ++
          String.intercalate ", " valid_providers))
  | some env_var =>
      let api_key := env env_var
      if required && !pyTruthy api_key then
        Except.error (PyError.configError
          ("API key not found for provider \x27" ++ provider ++
            "\x27. Please set " ++ env_var ++
            " in your .env file or environment variables. See .env.example for template."))
      else
        Except.ok api_key

/-- Models EnvConfigProvider.get_all_keys (config.py lines 90-109): the literal
three-entry dict built from os.getenv, in insertion order. -/
def get_all_keys (env : Env) : List (String × Option String) :=
  [("openai", env "EADLANGCHAIN_AI_OPENAI_API_KEY"),
   ("anthropic", env "EADLANGCHAIN_AI_ANTHROPIC_API_KEY"),
   ("gemini", env "EADLANGCHAIN_AI_GEMINI_API_KEY")]

/-- Models EnvConfigProvider.validate (config.py lines 111-126): calls get_key
with required set and discards the result, returning None. -/
def validate (env : Env) (provider : String) : Except PyError Unit :=
  match get_key env provider true with
  | Except.ok _ => Except.ok ()
  | Except.error e => Except.error e

/-- Models EnvConfigProvider.get_model_name (config.py lines 128-149): the
provider name is lower-cased; an identity outside MODEL_MAP returns None
instead of raising; otherwise the mapped model variable is read. -/
def get_model_name (env : Env) (provider : String) : Option String :=
  let provider := pyLower provider
  match MODEL_MAP.lookup provider with
  | none => none
  | some env_var => env env_var

end EnvConfigProvider

/-! Embedding of the module-level convenience layer (config.py lines 182-266),
which delegates to the module singleton _default_config = EnvConfigProvider().
The singleton carries no state, so delegation is direct application. -/

/-- Models get_api_key (config.py lines 186-211): delegates to the get_key
method of the singleton. -/
def get_api_key (env : Env) (provider : String) (required : Bool) :
    Except PyError (Option String) :=
  EnvConfigProvider.get_key env provider required

/-- Models get_all_api_keys (config.py lines 214-227): delegates to the
get_all_keys method of the singleton. -/
def get_all_api_keys (env : Env) : List (String × Option String) :=
  EnvConfigProvider.get_all_keys env

/-- Models validate_provider (config.py lines 230-245): delegates to the
validate method of the singleton. -/
def validate_provider (env : Env) (provider : String) : Except PyError Unit :=
  EnvConfigProvider.validate env provider

/-- Models the module-level get_model_name (config.py lines 248-266): delegates
to the get_model_name method of the singleton. -/
def get_model_name (env : Env) (provider : String) : Option String :=
  EnvConfigProvider.get_model_name env provider

/-! Embedding of load_env_config (config.py lines 152-179). Directories are
opaque path strings. -/

/-- One call made to the dotenv loader: load_dotenv of an explicit file path,
or the zero-argument load_dotenv library-default call. -/
inductive DotenvCall where
  | explicitFile (path : String)
  | libraryDefault
deriving DecidableEq, Repr

/-- Models load_env_config (config.py lines 152-179). cwd_chain is the current
working directory followed by its ancestors in order, the Python expression
[current] + list(current.parents); has_env d tells whether the file .env exists
in directory d. The result lists the dotenv load calls made, in order: the
explicit file when env_file is given; otherwise the .env of the first directory
of the chain that has one (the loop returns right after loading it); otherwise
the single fallback zero-argument load_dotenv call. -/
def load_env_config (env_file : Option String) (cwd_chain : List String)
    (has_env : String → Bool) : List DotenvCall :=
  match env_file with
  | some f => [DotenvCall.explicitFile f]
  | none =>
      match cwd_chain.find? has_env with
      | some parent => [DotenvCall.explicitFile (parent ++ "/.env")]
      | none => [DotenvCall.libraryDefault]

/-- Sets a list of variable assignments into an environment, later entries
winning, as the dotenv loader writes parsed values into os.environ. -/
def set_vars (env : Env) : List (String × String) → Env
  | [] => env
  | (k, v) :: rest => set_vars (fun x => if x = k then some v else env x) rest

/-- Models the effect of one dotenv call on the process environment. file_vars
p gives the assignments parsed from an .env file at path p (the empty list when
no such file exists: load_dotenv of a missing path loads nothing and does not
raise). The zero-argument load_dotenv call searches the ancestor chain of the
dotenv caller, lib_chain, for a .env file and loads it when found, otherwise it
changes nothing. -/
def apply_dotenv (file_vars : String → List (String × String))
    (lib_chain : List String) (has_env : String → Bool) (env : Env) :
    DotenvCall → Env
  | DotenvCall.explicitFile p => set_vars env (file_vars p)
  | DotenvCall.libraryDefault =>
      match lib_chain.find? has_env with
      | some parent => set_vars env (file_vars (parent ++ "/.env"))
      | none => env

/-! Embedding of CustomFormatter.format (logging_config.py lines 69-115). -/

/-- A log record, restricted to the fields CustomFormatter.format reads: the
absolute source path of the logging call (record.pathname, kept as its path
components) and the bare module name (record.module). -/
structure LogRecord where
  pathname : List String
  module : String
deriving DecidableEq, Repr

/-- Models the pathlib Path.relative_to method on component lists: succeeds
exactly when the root components come first in the path components, giving the
remaining components; pathlib raises ValueError otherwise. -/
def relative_to (path root : List String) : Option (List String) :=
  match path, root with
  | p, [] => some p
  | [], _ :: _ => none
  | a :: p, b :: r => if a = b then relative_to p r else none

/-- The dotted label built from the relative-path components: str of the path
with os.sep replaced by a dot (so a dot-joined component list), then a trailing
.py stripped (logging_config.py lines 86-89). -/
def relative_label (comps : List String) : String :=
  let s := String.intercalate "." comps
  if str_endswith s ".py" then s.dropRight 3 else s

/-- The body of the first try block of CustomFormatter.format (lines 83-89):
the relative_path computation, whose only failure mode is the ValueError raised
by relative_to. -/
def try_relative_path (root : List String) (rec : LogRecord) :
    Except PyError String :=
  match relative_to rec.pathname root with
  | some comps => Except.ok (relative_label comps)
  | none => Except.error (PyError.valueError "path is not relative to the project root")

/-- Outcome of the call-stack introspection of CustomFormatter.format
(lines 96-111): the frame two levels up binds self (giving the name of its
runtime class), binds cls (giving the class name), binds neither, or the
introspection raises some exception. -/
inductive Introspection where
  | selfBound (name : String)
  | clsBound (name : String)
  | noBinding
  | raised (e : PyError)
deriving DecidableEq, Repr

/-- The metaclass_name local variable as left by the second try block: the
found name, or the empty string when nothing is found or anything raises (the
except clause swallows every exception). -/
def introspected_name : Introspection → String
  | Introspection.selfBound n => n
  | Introspection.clsBound n => n
  | Introspection.noBinding => ""
  | Introspection.raised _ => ""

/-- Models the record.metaclass_name field as set at line 113: the found name
with a trailing dot when the name is truthy, the empty string otherwise. -/
def metaclass_field (intro : Introspection) : String :=
  let n := introspected_name intro
  if n.isEmpty then "" else n ++ "."

/-- Models CustomFormatter.format (logging_config.py lines 69-115). sup is the
inherited logging.Formatter.format, the standard template engine, taken as an
arbitrary total function of the record and the two derived fields; root is
self.project_root as path components; intro is the outcome of the stack
introspection at this call. The first except clause catches exactly ValueError
and AttributeError and falls back to record.module; any other exception of the
relative-path computation would propagate. -/
def CustomFormatter.format (sup : LogRecord → String → String → String)
    (root : List String) (intro : Introspection) (rec : LogRecord) :
    Except PyError String :=
  match try_relative_path root rec with
  | Except.ok s => Except.ok (sup rec s (metaclass_field intro))
  | Except.error (PyError.valueError _) =>
      Except.ok (sup rec rec.module (metaclass_field intro))
  | Except.error (PyError.attributeError _) =>
      Except.ok (sup rec rec.module (metaclass_field intro))
  | Except.error e => Except.error e

/-! Helper lemmas about the Python primitives. -/

theorem toNat_ofNat_valid (n : Nat) (h : n.isValidChar) : (Char.ofNat n).toNat = n := by
  simp [Char.ofNat, Char.ofNatAux, h, Char.toNat, BitVec.toNat_ofNatLt, UInt32.toNat]

theorem lowerChar_idem (c : Char) : lowerChar (lowerChar c) = lowerChar c := by
  unfold lowerChar
  by_cases h : 65 ≤ c.toNat ∧ c.toNat ≤ 90
  · have hv : (c.toNat + 32).isValidChar := by
      have := h.2
      exact Or.inl (by omega)
    rw [if_pos h]
    rw [if_neg]
    rw [toNat_ofNat_valid _ hv]
    omega
  · rw [if_neg h, if_neg h]

theorem pyLower_idem (s : String) : pyLower (pyLower s) = pyLower s := by
  unfold pyLower
  congr 1
  show (s.data.map lowerChar).map lowerChar = s.data.map lowerChar
  rw [List.map_map]
  simp [Function.comp, lowerChar_idem]

theorem str_empty_append (s : String) : "" ++ s = s := rfl

theorem contains_sub_of_split (needle a b s : String)
    (h : s = a ++ needle ++ b) : str_contains_sub needle s := ⟨a, b, h⟩

theorem find_first_match {α : Type} (p : α → Bool) (pre : List α) (d : α)
    (post : List α) (hpre : ∀ x ∈ pre, p x = false) (hd : p d = true) :
    (pre ++ d :: post).find? p = some d := by
  induction pre with
  | nil => simp [List.find?, hd]
  | cons a as ih =>
      have ha : p a = false := hpre a (List.mem_cons_self a as)
      have : ((a :: as) ++ d :: post) = a :: (as ++ d :: post) := rfl
      rw [this, List.find?]
      rw [ha]
      exact ih fun x hx => hpre x (List.mem_cons_of_mem a hx)

theorem find_none_of_all_false {α : Type} (p : α → Bool) (l : List α)
    (h : ∀ x, p x = false) : l.find? p = none := by
  rw [List.find?_eq_none]
  intro x _
  simp [h x]

/-! Auxiliary facts about the embedded configuration provider. -/

theorem lookup_maps_none (q : String) (h1 : q ≠ "openai") (h2 : q ≠ "anthropic")
    (h3 : q ≠ "gemini") :
    EnvConfigProvider.PROVIDER_MAP.lookup q = none ∧
    EnvConfigProvider.MODEL_MAP.lookup q = none := by
  have e1 : (q == "openai") = false := beq_eq_false_iff_ne.mpr h1
  have e2 : (q == "anthropic") = false := beq_eq_false_iff_ne.mpr h2
  have e3 : (q == "gemini") = false := beq_eq_false_iff_ne.mpr h3
  constructor <;>
    simp [EnvConfigProvider.PROVIDER_MAP, EnvConfigProvider.MODEL_MAP,
      List.lookup, e1, e2, e3]

theorem get_key_unknown_aux (env : Env) (p : String) (r : Bool)
    (h : EnvConfigProvider.PROVIDER_MAP.lookup (pyLower p) = none) :
    EnvConfigProvider.get_key env p r = Except.error (PyError.valueError
      ("Unknown provider: " ++ pyLower p ++ ". Supported providers: " ++
        String.intercalate ", "
          (py_sorted (EnvConfigProvider.PROVIDER_MAP.map Prod.fst)))) := by
  simp only [EnvConfigProvider.get_key, h]

theorem get_key_known_aux (env : Env) (p v : String) (r : Bool)
    (h : EnvConfigProvider.PROVIDER_MAP.lookup (pyLower p) = some v) :
    EnvConfigProvider.get_key env p r =
      if r && !pyTruthy (env v) then
        Except.error (PyError.configError
          ("API key not found for provider \x27" ++ pyLower p ++
            "\x27. Please set " ++ v ++
            " in your .env file or environment variables. See .env.example for template."))
      else Except.ok (env v) := by
  simp only [EnvConfigProvider.get_key, h]

/-- C2: for every recognized provider identity (in any casing, captured by its
lowered form being a PROVIDER_MAP key mapped to variable v), get_key raises
exactly when required is true and the variable is unset or empty, the raised
ConfigError message contains both the text API key not found and the variable
name, and with required false and the variable unset it returns none. -/
theorem get_key_required_semantics (env : Env) (p v : String)
    (h : EnvConfigProvider.PROVIDER_MAP.lookup (pyLower p) = some v) :
    (∀ r : Bool, (∃ e, EnvConfigProvider.get_key env p r = Except.error e) ↔
        (r = true ∧ (env v = none ∨ env v = some ""))) ∧
    ((env v = none ∨ env v = some "") →
        ∃ msg, EnvConfigProvider.get_key env p true =
            Except.error (PyError.configError msg) ∧
          str_contains_sub "API key not found" msg ∧ str_contains_sub v msg) ∧
    (env v = none → EnvConfigProvider.get_key env p false = Except.ok none) := by
  have hfalsy : ∀ o : Option String,
      ((!pyTruthy o) = true) ↔ (o = none ∨ o = some "") := by
    intro o
    cases o with
    | none => simp [pyTruthy]
    | some s => simp [pyTruthy, String.isEmpty_iff]
  refine ⟨?_, ?_, ?_⟩
  · intro r
    rw [get_key_known_aux env p v r h]
    cases r with
    | false => simp
    | true =>
        by_cases hf : env v = none ∨ env v = some ""
        · have hb : (!pyTruthy (env v)) = true := (hfalsy _).mpr hf
          simp [hb, hf]
        · have hb : (!pyTruthy (env v)) = false := by
            cases hx : !pyTruthy (env v)
            · rfl
            · exact absurd ((hfalsy _).mp hx) hf
          simp [hb, hf]
  · intro hf
    have hb : (!pyTruthy (env v)) = true := (hfalsy _).mpr hf
    refine ⟨"API key not found for provider \x27" ++ pyLower p ++
      "\x27. Please set " ++ v ++
      " in your .env file or environment variables. See .env.example for template.",
      ?_, ?_, ?_⟩
    · rw [get_key_known_aux env p v true h, hb]
      simp
    · have hsplit : ("API key not found for provider \x27" : String) =
          "API key not found" ++ " for provider \x27" := by decide
      refine ⟨"", " for provider \x27" ++ pyLower p ++ "\x27. Please set " ++ v ++
        " in your .env file or environment variables. See .env.example for template.", ?_⟩
      rw [hsplit]
      simp only [String.append_assoc, str_empty_append]
    · exact ⟨"API key not found for provider \x27" ++ pyLower p ++ "\x27. Please set ",
        " in your .env file or environment variables. See .env.example for template.", rfl⟩
  · intro hnone
    rw [get_key_known_aux env p v false h]
    simp [hnone]

/-- C2 witness: with the whole environment unset, get_key of openai raises when
required and returns none when not required. -/
theorem get_key_required_semantics_witness :
    (∃ e, EnvConfigProvider.get_key (fun _ => none) "openai" true = Except.error e) ∧
    EnvConfigProvider.get_key (fun _ => none) "openai" false = Except.ok none := by
  have h := get_key_required_semantics (fun _ => none) "openai"
    "EADLANGCHAIN_AI_OPENAI_API_KEY" (by decide)
  exact ⟨(h.1 true).mpr ⟨rfl, Or.inl rfl⟩, h.2.2 rfl⟩

/-- C3: for every provider string whose lowered form is not one of the three
recognized identities, get_key raises a ValueError whose message contains the
text Unknown provider, for both values of required and independently of the
environment. -/
theorem get_key_unknown_provider (env : Env) (p : String) (r : Bool)
    (h1 : pyLower p ≠ "openai") (h2 : pyLower p ≠ "anthropic")
    (h3 : pyLower p ≠ "gemini") :
    ∃ msg, EnvConfigProvider.get_key env p r =
        Except.error (PyError.valueError msg) ∧
      str_contains_sub "Unknown provider" msg := by
  have h := (lookup_maps_none (pyLower p) h1 h2 h3).1
  refine ⟨"Unknown provider: " ++ pyLower p ++ ". Supported providers: " ++
      String.intercalate ", "
        (py_sorted (EnvConfigProvider.PROVIDER_MAP.map Prod.fst)), ?_, ?_⟩
  · exact get_key_unknown_aux env p r h
  · have hsplit : ("Unknown provider: " : String) = "Unknown provider" ++ ": " := by
      decide
    refine ⟨"", ": " ++ pyLower p ++ ". Supported providers: " ++
      String.intercalate ", "
        (py_sorted (EnvConfigProvider.PROVIDER_MAP.map Prod.fst)), ?_⟩
    rw [hsplit]
    simp only [String.append_assoc, str_empty_append]

/-- C3 witness: the concrete unknown identity not-a-provider raises with the
required flag set. -/
theorem get_key_unknown_provider_witness :
    ∃ msg, EnvConfigProvider.get_key (fun _ => none) "not-a-provider" true =
        Except.error (PyError.valueError msg) ∧
      str_contains_sub "Unknown provider" msg :=
  get_key_unknown_provider (fun _ => none) "not-a-provider" true
    (by decide) (by decide) (by decide)

/-- C4: for each recognized provider identity, get_key returns exactly the
non-empty value stored in the mapped variable, and get_key treats any casing of
the identity exactly as its lowered form, for every string and both values of
the required flag. -/
theorem get_key_value_and_case_insensitive (env : Env) :
    (∀ p v w r, EnvConfigProvider.PROVIDER_MAP.lookup (pyLower p) = some v →
        env v = some w → w ≠ "" →
        EnvConfigProvider.get_key env p r = Except.ok (some w)) ∧
    (∀ p r, EnvConfigProvider.get_key env p r =
        EnvConfigProvider.get_key env (pyLower p) r) := by
  constructor
  · intro p v w r h hv hw
    rw [get_key_known_aux env p v r h, hv]
    have hwe : w.isEmpty = false := by
      cases hx : w.isEmpty
      · rfl
      · exact absurd ((String.isEmpty_iff w).mp hx) hw
    have ht : pyTruthy (some w) = true := by
      simp [pyTruthy, hwe]
    rw [ht]
    simp
  · intro p r
    simp only [EnvConfigProvider.get_key, pyLower_idem]

/-- C4 witness: with the openai key variable set to sk-test, the mixed-casing
identity OpenAI resolves to that value, and the upper-cased identity behaves
exactly as the lowered one. -/
theorem get_key_value_and_case_insensitive_witness :
    EnvConfigProvider.get_key
        (fun x => if x = "EADLANGCHAIN_AI_OPENAI_API_KEY" then some "sk-test" else none)
        "OpenAI" true = Except.ok (some "sk-test") ∧
    EnvConfigProvider.get_key
        (fun x => if x = "EADLANGCHAIN_AI_OPENAI_API_KEY" then some "sk-test" else none)
        "OPENAI" true =
      EnvConfigProvider.get_key
        (fun x => if x = "EADLANGCHAIN_AI_OPENAI_API_KEY" then some "sk-test" else none)
        "openai" true := by
  have h := get_key_value_and_case_insensitive
    (fun x => if x = "EADLANGCHAIN_AI_OPENAI_API_KEY" then some "sk-test" else none)
  constructor
  · exact h.1 "OpenAI" "EADLANGCHAIN_AI_OPENAI_API_KEY" "sk-test" true
      (by decide) (by decide) (by decide)
  · have h2 := h.2 "OPENAI" true
    rw [show pyLower "OPENAI" = "openai" from by decide] at h2
    exact h2

/-- C5 counterexample: the claim says every lookup operation, get_model_name
included, fails on an unknown provider; but get_model_name of the unknown
identity not-a-provider silently returns none (an absent value), refuting the
claim as stated. -/
theorem unknown_provider_silent_model_name :
    EnvConfigProvider.get_model_name (fun _ => none) "not-a-provider" = none := by
  decide

/-- C5 amended: for every provider identity whose lowered form is outside the
fixed set, get_key (for both values of required) and validate raise an error
rather than returning a default, while get_model_name (deliberately asymmetric)
returns an absent value without raising. -/
theorem unknown_provider_lookup_amended (env : Env) (p : String)
    (h1 : pyLower p ≠ "openai") (h2 : pyLower p ≠ "anthropic")
    (h3 : pyLower p ≠ "gemini") :
    (∀ r, ∃ e, EnvConfigProvider.get_key env p r = Except.error e) ∧
    (∃ e, EnvConfigProvider.validate env p = Except.error e) ∧
    EnvConfigProvider.get_model_name env p = none := by
  obtain ⟨hp, hm⟩ := lookup_maps_none (pyLower p) h1 h2 h3
  refine ⟨?_, ?_, ?_⟩
  · intro r
    exact ⟨_, get_key_unknown_aux env p r hp⟩
  · refine ⟨PyError.valueError ("Unknown provider: " ++ pyLower p ++
      ". Supported providers: " ++ String.intercalate ", "
        (py_sorted (EnvConfigProvider.PROVIDER_MAP.map Prod.fst))), ?_⟩
    unfold EnvConfigProvider.validate
    rw [get_key_unknown_aux env p true hp]
  · simp only [EnvConfigProvider.get_model_name, hm]

/-- C5 amended witness: the concrete unknown identity not-a-provider makes
get_key and validate raise while get_model_name returns none. -/
theorem unknown_provider_lookup_amended_witness :
    (∃ e, EnvConfigProvider.get_key (fun _ => none) "not-a-provider" false =
        Except.error e) ∧
    (∃ e, EnvConfigProvider.validate (fun _ => none) "not-a-provider" =
        Except.error e) ∧
    EnvConfigProvider.get_model_name (fun _ => none) "NOT-A-PROVIDER" = none := by
  have h := unknown_provider_lookup_amended (fun _ => none) "not-a-provider"
    (by decide) (by decide) (by decide)
  have h4 := unknown_provider_lookup_amended (fun _ => none) "NOT-A-PROVIDER"
    (by decide) (by decide) (by decide)
  exact ⟨h.1 false, h.2.1, h4.2.2⟩

/-- C6: get_model_name applies the same lower-casing normalization as get_key,
returns the value of the mapped model variable for a recognized provider, and
returns none for every unrecognized provider while get_key raises there. -/
theorem get_model_name_semantics (env : Env) (p : String) :
    (EnvConfigProvider.get_model_name env p =
        EnvConfigProvider.get_model_name env (pyLower p)) ∧
    (∀ v, EnvConfigProvider.MODEL_MAP.lookup (pyLower p) = some v →
        EnvConfigProvider.get_model_name env p = env v) ∧
    (EnvConfigProvider.MODEL_MAP.lookup (pyLower p) = none →
        EnvConfigProvider.get_model_name env p = none ∧
        ∃ e, EnvConfigProvider.get_key env p true = Except.error e) := by
  refine ⟨?_, ?_, ?_⟩
  · simp only [EnvConfigProvider.get_model_name, pyLower_idem]
  · intro v hv
    simp only [EnvConfigProvider.get_model_name, hv]
  · intro hm
    have hp : EnvConfigProvider.PROVIDER_MAP.lookup (pyLower p) = none := by
      by_cases h1 : pyLower p = "openai"
      · rw [h1] at hm
        exact absurd hm (by decide)
      · by_cases h2 : pyLower p = "anthropic"
        · rw [h2] at hm
          exact absurd hm (by decide)
        · by_cases h3 : pyLower p = "gemini"
          · rw [h3] at hm
            exact absurd hm (by decide)
          · exact (lookup_maps_none (pyLower p) h1 h2 h3).1
    refine ⟨?_, ⟨_, get_key_unknown_aux env p true hp⟩⟩
    simp only [EnvConfigProvider.get_model_name, hm]

/-- C6 witness: with the gemini model variable set, any casing of gemini
resolves to it, and the unknown identity not-a-provider yields none from
get_model_name while get_key raises. -/
theorem get_model_name_semantics_witness :
    EnvConfigProvider.get_model_name
        (fun x => if x = "EADLANGCHAIN_AI_GEMINI_MODEL" then some "gemini-pro" else none)
        "Gemini" = some "gemini-pro" ∧
    (EnvConfigProvider.get_model_name (fun _ => none) "not-a-provider" = none ∧
      ∃ e, EnvConfigProvider.get_key (fun _ => none) "not-a-provider" true =
          Except.error e) := by
  constructor
  · have h := (get_model_name_semantics
      (fun x => if x = "EADLANGCHAIN_AI_GEMINI_MODEL" then some "gemini-pro" else none)
      "Gemini").2.1 "EADLANGCHAIN_AI_GEMINI_MODEL" (by decide)
    rw [h]
    decide
  · exact (get_model_name_semantics (fun _ => none) "not-a-provider").2.2 (by decide)

/-- C7: load_env_config with an explicit path makes exactly one load call, of
that file; with no argument it loads the .env of the first directory of the
ancestor chain that has one and stops there; and when no directory anywhere has
a .env it completes, making only the fallback call, which leaves the
environment exactly as it was. -/
theorem load_env_config_semantics (cwd_chain lib_chain : List String)
    (has_env : String → Bool) (file_vars : String → List (String × String))
    (env : Env) :
    (∀ f, load_env_config (some f) cwd_chain has_env =
        [DotenvCall.explicitFile f]) ∧
    (∀ pre d post, cwd_chain = pre ++ d :: post →
        (∀ x ∈ pre, has_env x = false) → has_env d = true →
        load_env_config none cwd_chain has_env =
          [DotenvCall.explicitFile (d ++ "/.env")]) ∧
    ((∀ d, has_env d = false) →
        load_env_config none cwd_chain has_env = [DotenvCall.libraryDefault] ∧
        (load_env_config none cwd_chain has_env).foldl
          (apply_dotenv file_vars lib_chain has_env) env = env) := by
  refine ⟨fun f => rfl, ?_, ?_⟩
  · intro pre d post hchain hpre hd
    subst hchain
    unfold load_env_config
    rw [find_first_match has_env pre d post hpre hd]
  · intro hall
    have h1 : load_env_config none cwd_chain has_env =
        [DotenvCall.libraryDefault] := by
      unfold load_env_config
      rw [find_none_of_all_false has_env cwd_chain hall]
    refine ⟨h1, ?_⟩
    rw [h1]
    show apply_dotenv file_vars lib_chain has_env env DotenvCall.libraryDefault = env
    unfold apply_dotenv
    rw [find_none_of_all_false has_env lib_chain hall]

/-- C7 witness: an explicit file is the only load; in the chain a, b, c where
only b has a .env, b wins; and with no .env anywhere the single fallback call
leaves the all-unset environment unchanged. -/
theorem load_env_config_semantics_witness :
    load_env_config (some "custom.env") ["a", "b"] (fun s => s == "b") =
      [DotenvCall.explicitFile "custom.env"] ∧
    load_env_config none ["a", "b", "c"] (fun s => s == "b") =
      [DotenvCall.explicitFile ("b" ++ "/.env")] ∧
    (load_env_config none ["a"] (fun _ => false)).foldl
      (apply_dotenv (fun _ => []) ["z"] (fun _ => false)) (fun _ => none : Env) =
      (fun _ => none : Env) := by
  refine ⟨?_, ?_, ?_⟩
  · exact (load_env_config_semantics ["a", "b"] [] (fun s => s == "b")
      (fun _ => []) (fun _ => none)).1 "custom.env"
  · exact (load_env_config_semantics ["a", "b", "c"] [] (fun s => s == "b")
      (fun _ => []) (fun _ => none)).2.1 ["a"] "b" ["c"] rfl (by decide) (by decide)
  · exact ((load_env_config_semantics ["a"] ["z"] (fun _ => false)
      (fun _ => []) (fun _ => none)).2.2 (fun _ => rfl)).2

/-- C8: get_all_keys always returns the three-entry mapping whose keys are
exactly openai, anthropic, gemini in order, and each entry holds exactly the
value the environment gives for the variable that PROVIDER_MAP assigns to that
provider (none when unset); there is no failure path. -/
theorem get_all_keys_complete (env : Env) :
    (EnvConfigProvider.get_all_keys env).map Prod.fst =
      ["openai", "anthropic", "gemini"] ∧
    (∀ p v, EnvConfigProvider.PROVIDER_MAP.lookup p = some v →
        (EnvConfigProvider.get_all_keys env).lookup p = some (env v)) := by
  refine ⟨rfl, ?_⟩
  intro p v h
  by_cases h1 : p = "openai"
  · subst h1
    have hv : v = "EADLANGCHAIN_AI_OPENAI_API_KEY" := by
      rw [show EnvConfigProvider.PROVIDER_MAP.lookup "openai" =
        some "EADLANGCHAIN_AI_OPENAI_API_KEY" from by decide] at h
      exact (Option.some_inj.mp h).symm
    subst hv
    rfl
  · by_cases h2 : p = "anthropic"
    · subst h2
      have hv : v = "EADLANGCHAIN_AI_ANTHROPIC_API_KEY" := by
        rw [show EnvConfigProvider.PROVIDER_MAP.lookup "anthropic" =
          some "EADLANGCHAIN_AI_ANTHROPIC_API_KEY" from by decide] at h
        exact (Option.some_inj.mp h).symm
      subst hv
      rfl
    · by_cases h3 : p = "gemini"
      · subst h3
        have hv : v = "EADLANGCHAIN_AI_GEMINI_API_KEY" := by
          rw [show EnvConfigProvider.PROVIDER_MAP.lookup "gemini" =
            some "EADLANGCHAIN_AI_GEMINI_API_KEY" from by decide] at h
          exact (Option.some_inj.mp h).symm
        subst hv
        rfl
      · exfalso
        rw [(lookup_maps_none p h1 h2 h3).1] at h
        exact Option.noConfusion h

/-- C8 witness: with zero variables set, the mapping still has the three keys
and the openai entry is the absent value. -/
theorem get_all_keys_complete_witness :
    (EnvConfigProvider.get_all_keys (fun _ => none)).map Prod.fst =
      ["openai", "anthropic", "gemini"] ∧
    (EnvConfigProvider.get_all_keys (fun _ => none)).lookup "openai" =
      some none := by
  have h := get_all_keys_complete (fun _ => none)
  exact ⟨h.1, h.2 "openai" "EADLANGCHAIN_AI_OPENAI_API_KEY" (by decide)⟩

/-- C9: validate raises exactly the errors get_key raises with required true,
and returns the unit value (nothing) whenever get_key would succeed. -/
theorem validate_equiv_get_key (env : Env) (p : String) :
    (∀ e, EnvConfigProvider.validate env p = Except.error e ↔
        EnvConfigProvider.get_key env p true = Except.error e) ∧
    (∀ v, EnvConfigProvider.get_key env p true = Except.ok v →
        EnvConfigProvider.validate env p = Except.ok ()) := by
  constructor
  · intro e
    unfold EnvConfigProvider.validate
    cases hk : EnvConfigProvider.get_key env p true with
    | ok v => simp
    | error e2 => simp
  · intro v hv
    unfold EnvConfigProvider.validate
    rw [hv]

/-- C9 witness: with the openai key set, validate returns the unit value, by
the success branch of the equivalence. -/
theorem validate_equiv_get_key_witness :
    EnvConfigProvider.validate
      (fun x => if x = "EADLANGCHAIN_AI_OPENAI_API_KEY" then some "sk-test" else none)
      "openai" = Except.ok () :=
  (validate_equiv_get_key
      (fun x => if x = "EADLANGCHAIN_AI_OPENAI_API_KEY" then some "sk-test" else none)
      "openai").2 (some "sk-test") (by rfl)

/-- C10: each module-level convenience function agrees with the corresponding
method of the stateless EnvConfigProvider singleton at every argument and in
every environment. -/
theorem module_level_delegation (env : Env) (p : String) (r : Bool) :
    get_api_key env p r = EnvConfigProvider.get_key env p r ∧
    get_all_api_keys env = EnvConfigProvider.get_all_keys env ∧
    validate_provider env p = EnvConfigProvider.validate env p ∧
    get_model_name env p = EnvConfigProvider.get_model_name env p :=
  ⟨rfl, rfl, rfl, rfl⟩

/-- Auxiliary: CustomFormatter.format always reduces to a successful result
built from the caught relative-path fallback and the metaclass field. -/
theorem format_eq_ok (sup : LogRecord → String → String → String)
    (root : List String) (intro : Introspection) (rec : LogRecord) :
    CustomFormatter.format sup root intro rec =
      Except.ok (sup rec
        (match relative_to rec.pathname root with
         | some comps => relative_label comps
         | none => rec.module)
        (metaclass_field intro)) := by
  unfold CustomFormatter.format try_relative_path
  cases relative_to rec.pathname root <;> rfl

/-- C1: CustomFormatter.format never propagates a failure: for every record,
project root, and introspection outcome it returns a formatted string; when the
record pathname cannot be made relative to the project root, the relative-path
field falls back to the module name of the record; and when the introspection
raises in any way, the metaclass field is the empty string. -/
theorem format_never_raises (sup : LogRecord → String → String → String)
    (root : List String) (intro : Introspection) (rec : LogRecord) :
    (∃ s, CustomFormatter.format sup root intro rec = Except.ok s) ∧
    (relative_to rec.pathname root = none →
        CustomFormatter.format sup root intro rec =
          Except.ok (sup rec rec.module (metaclass_field intro))) ∧
    (∀ e, intro = Introspection.raised e →
        CustomFormatter.format sup root intro rec =
          Except.ok (sup rec
            (match relative_to rec.pathname root with
             | some comps => relative_label comps
             | none => rec.module) "")) := by
  refine ⟨⟨_, format_eq_ok sup root intro rec⟩, ?_, ?_⟩
  · intro hn
    rw [format_eq_ok, hn]
  · intro e he
    subst he
    rw [format_eq_ok]
    have hm : metaclass_field (Introspection.raised e) = "" := rfl
    rw [hm]

/-- C1 witness: a record whose path lies outside the configured root and whose
introspection raised still formats, with the module name and an empty metaclass
field. -/
theorem format_never_raises_witness :
    CustomFormatter.format (fun _ rp mc => rp ++ "|" ++ mc) ["root"]
      (Introspection.raised (PyError.valueError "boom"))
      ⟨["site", "app.py"], "app"⟩ = Except.ok "app|" := by
  have h := (format_never_raises (fun _ rp mc => rp ++ "|" ++ mc) ["root"]
    (Introspection.raised (PyError.valueError "boom"))
    ⟨["site", "app.py"], "app"⟩).2.1 (by decide)
  rw [h]
  rfl
